import Mathlib

/-!
Shallow embedding of the weekly tracking core of the solat-qada-tracker
repository.

Sources:
* `src/unnamed/part_001` — the current-generation application (Malay prayer
  names, Firestore sync, prayer-name key migration);
* `src/unnamed/part_000` — the earlier variant (Latin prayer names, live
  backup-email call inside `resetWeek`);
* `src/src/App.jsx` — the minimal variant (same handlers as `part_000`
  without email and import/export).

Modelling conventions: JS numbers used as integers are `Int`; timestamps are
milliseconds since the epoch; a prayer mapping (a JS object) is a function
`String → Option PrayerCounters` where a key is present (truthy) iff the value
is `some`.  A JS spread of an undefined entry would produce a partial object;
entries are modelled as full counter records via `Option.getD defaultCounters`,
and every theorem below that reads a counter value assumes the key is present
(as the Ledger invariant of the spec guarantees), so the defaulted branch is
never relied upon.
-/

/-- Counter record stored per prayer name:
`{ totalQada, weeklyTarget, completedThisWeek }`. -/
structure PrayerCounters where
  totalQada : Int
  weeklyTarget : Int
  completedThisWeek : Int
  deriving DecidableEq, Repr

/-- Prayer mapping: a JS object keyed by prayer-name strings. -/
abbrev RawMap := String → Option PrayerCounters

/-- Current-generation prayer names (`PRAYERS` in `part_001` line 6). -/
def PRAYERS : List String := ["Subuh", "Zohor", "Asar", "Maghrib", "Isyak"]

/-- Legacy-generation prayer names (`PRAYERS` in `part_000` line 5). -/
def PRAYERS_LEGACY : List String := ["Fajr", "Dhuhr", "Asr", "Maghrib", "Isha"]

/-- Legacy-to-current rename table (`OLD_TO_NEW`, `part_001` lines 14-20). -/
def OLD_TO_NEW : List (String × String) :=
  [("Fajr", "Subuh"), ("Dhuhr", "Zohor"), ("Asr", "Asar"),
   ("Maghrib", "Maghrib"), ("Isha", "Isyak")]

/-- Default counters `{ totalQada: 0, weeklyTarget: 0, completedThisWeek: 0 }`. -/
def defaultCounters : PrayerCounters := ⟨0, 0, 0⟩

/-- Default prayer data (`getDefaultPrayerData`, `part_001` lines 22-29):
each current-generation name maps to the default counters. -/
def getDefaultPrayerData : RawMap :=
  fun k => if k ∈ PRAYERS then some defaultCounters else none

/-- Numeric value of a base-10 digit list. -/
def digitsVal (cs : List Char) : Nat :=
  cs.foldl (fun acc c => acc * 10 + (c.toNat - 48)) 0

/-- JS `parseInt` restricted to base 10: skip leading whitespace, optional
sign, then the longest digit prefix; `none` models `NaN`.  (The `0x` hex form
is not modelled; no claim below depends on it, since each claim quantifies
over the parsed-and-clamped count.) -/
def jsParseInt (s : String) : Option Int :=
  match s.toList.dropWhile Char.isWhitespace with
  | '-' :: rest =>
    let ds := rest.takeWhile Char.isDigit
    if ds.isEmpty then none else some (-(digitsVal ds : Int))
  | '+' :: rest =>
    let ds := rest.takeWhile Char.isDigit
    if ds.isEmpty then none else some ((digitsVal ds : Int))
  | other =>
    let ds := other.takeWhile Char.isDigit
    if ds.isEmpty then none else some ((digitsVal ds : Int))

/-- The idiom `Math.max(0, parseInt(value) || 0)` used by every numeric input
handler (`parseInt(v) || 0` turns `NaN` into 0 and keeps any number). -/
def jsClampParse (s : String) : Int :=
  max 0 ((jsParseInt s).getD 0)

/-- Milliseconds per day (`1000 * 60 * 60 * 24`). -/
def msPerDay : Int := 1000 * 60 * 60 * 24

/-- Days left in the current cycle (`getDaysLeftInWeek`, `part_001` lines
58-63): `Math.max(0, 7 - Math.floor((now - start) / msPerDay))`.  JS float
division followed by `Math.floor` on integer millisecond timestamps is exact
floor division, i.e. `Int.fdiv`. -/
def getDaysLeftInWeek (now start : Int) : Int :=
  max 0 (7 - (now - start).fdiv msPerDay)

/-- Expiry check (`shouldAutoReset`, `part_001` lines 65-67). -/
def shouldAutoReset (now start : Int) : Bool :=
  getDaysLeftInWeek now start == 0

/-- Whether every current-generation key is present (truthy),
`part_001` line 33. -/
def hasAllNewKeys (data : RawMap) : Bool :=
  PRAYERS.all fun p => (data p).isSome

/-- Whether one of the four legacy-only keys is present, `part_001` line 35.
The shared name `Maghrib` is deliberately absent from this check in the
source. -/
def hasOldKeys (data : RawMap) : Bool :=
  ["Fajr", "Dhuhr", "Asr", "Isha"].any fun k => (data k).isSome

/-- Whether any of the five legacy-generation keys (including the shared
`Maghrib`) is present.  This is the trigger condition the claim describes;
compare `hasOldKeys`, which is what the code actually tests. -/
def hasAnyLegacyKey (data : RawMap) : Bool :=
  PRAYERS_LEGACY.any fun k => (data k).isSome

/-- Body of `migratePrayerNames` (`part_001` lines 31-42) on a non-null
mapping.  The source loop over `Object.entries(OLD_TO_NEW)` —
`migrated[newKey] = data[oldKey] || defaultEntry` — is unrolled over its five
fixed entries. -/
def migrateMap (data : RawMap) : RawMap :=
  if hasAllNewKeys data then data
  else if hasOldKeys data then
    fun k =>
      if k = "Subuh" then some ((data "Fajr").getD defaultCounters)
      else if k = "Zohor" then some ((data "Dhuhr").getD defaultCounters)
      else if k = "Asar" then some ((data "Asr").getD defaultCounters)
      else if k = "Maghrib" then some ((data "Maghrib").getD defaultCounters)
      else if k = "Isyak" then some ((data "Isha").getD defaultCounters)
      else none
  else data

/-- Full `migratePrayerNames` including the `if (!data) return null` guard. -/
def migratePrayerNames : Option RawMap → Option RawMap
  | none => none
  | some data => some (migrateMap data)

/-- Mapping that the claim (and spec §4.4) says a fired migration produces:
every legacy key renamed via the fixed table with its counters preserved,
every current key whose legacy counterpart is absent defaulted to `{0,0,0}`,
and nothing else.  Written from the claim's words, for comparison with
`migrateMap`. -/
def claimMigrated (data : RawMap) : RawMap :=
  fun k =>
    if k = "Subuh" then some ((data "Fajr").getD defaultCounters)
    else if k = "Zohor" then some ((data "Dhuhr").getD defaultCounters)
    else if k = "Asar" then some ((data "Asr").getD defaultCounters)
    else if k = "Maghrib" then some ((data "Maghrib").getD defaultCounters)
    else if k = "Isyak" then some ((data "Isha").getD defaultCounters)
    else none

/-- `handleSetTotal` (`part_001` lines 254-260): clamp-parse the raw value and
replace `totalQada` for the given prayer. -/
def handleSetTotal (m : RawMap) (p : String) (value : String) : RawMap :=
  fun k =>
    if k = p then some { (m p).getD defaultCounters with totalQada := jsClampParse value }
    else m k

/-- `handleSetWeeklyTarget` (`part_001` lines 262-268). -/
def handleSetWeeklyTarget (m : RawMap) (p : String) (value : String) : RawMap :=
  fun k =>
    if k = p then some { (m p).getD defaultCounters with weeklyTarget := jsClampParse value }
    else m k

/-- `handleAddCompleted` (`part_001` lines 274-286): clamp-parse the pending
input for the prayer; on 0 return without touching anything; otherwise
decrement `totalQada` (floored at 0), increment `completedThisWeek`, and clear
the pending input. -/
def handleAddCompleted (m : RawMap) (todayInput : String → String) (p : String) :
    RawMap × (String → String) :=
  let num := jsClampParse (todayInput p)
  if num = 0 then (m, todayInput)
  else
    (fun k =>
      if k = p then
        some { (m p).getD defaultCounters with
                 totalQada := max 0 (((m p).getD defaultCounters).totalQada - num),
                 completedThisWeek := ((m p).getD defaultCounters).completedThisWeek + num }
      else m k,
     fun k => if k = p then "" else todayInput k)

/-- Result of a cycle reset: the new prayers mapping, the new
`weekStartDate`, and the notification attempt made during the reset (the
summary handed to the email sink, `none` when no attempt happens). -/
structure ResetOutcome where
  prayers : RawMap
  weekStartDate : Int
  attempt : Option (List (String × Int × Int))

/-- Per-prayer summary built by `sendBackupEmail` in `part_001` (lines
199-202): for each current name, the line carries `completedThisWeek` and
`totalQada`; the string formatting is abstracted to the triple of values each
line carries. -/
def summaryOf (m : RawMap) : List (String × Int × Int) :=
  PRAYERS.map fun p =>
    (p, ((m p).getD defaultCounters).completedThisWeek, ((m p).getD defaultCounters).totalQada)

/-- Per-prayer summary built by `sendBackupEmail` in `part_000` (lines 72-75),
over the legacy names. -/
def summaryOfL (m : RawMap) : List (String × Int × Int) :=
  PRAYERS_LEGACY.map fun p =>
    (p, ((m p).getD defaultCounters).completedThisWeek, ((m p).getD defaultCounters).totalQada)

/-- `resetWeek` of the current generation (`part_001` lines 219-229): zero
`completedThisWeek` for every current prayer name (other keys of the spread
copy are untouched) and set `weekStartDate := now`.  The
`sendBackupEmail(prev, false)` call at line 221 is commented out in the
source, so no notification attempt is made. -/
def resetWeek (m : RawMap) (now : Int) : ResetOutcome :=
  { prayers := fun k =>
      if k ∈ PRAYERS then some { (m k).getD defaultCounters with completedThisWeek := 0 }
      else m k,
    weekStartDate := now,
    attempt := none }

/-- `resetWeek` of the earlier variant (`part_000` lines 92-102):
`sendBackupEmail(prev, false)` is invoked on the pre-reset snapshot `prev`
before the counters are zeroed; with `skipGuard = false` the attempt is
suppressed exactly when the persisted guard equals today's date. -/
def resetWeekLegacy (m : RawMap) (guard : Option String) (today : String) (now : Int) :
    ResetOutcome :=
  { prayers := fun k =>
      if k ∈ PRAYERS_LEGACY then some { (m k).getD defaultCounters with completedThisWeek := 0 }
      else m k,
    weekStartDate := now,
    attempt := if guard = some today then none else some (summaryOfL m) }

/-- Result of one `sendBackupEmail` call. -/
structure SendResult where
  attempted : Bool
  payload : Option (List (String × Int × Int))
  guardAfter : Option String
  surfacedError : Option String
  deriving DecidableEq

/-- `sendBackupEmail(prayerData, skipGuard)` (`part_001` lines 191-217;
`part_000` lines 64-90 are identical up to the prayer-name list).  `guard` is
the persisted `EMAIL_SENT_KEY` marker, `today` the current date string, and
`outcome` the delivery result of the asynchronous send (`none` = success,
`some err` = failure): the success continuation stores today's date in the
guard, the failure continuation surfaces the error message and leaves the
guard alone. -/
def sendBackupEmail (prayerData : RawMap) (skipGuard : Bool) (guard : Option String)
    (today : String) (outcome : Option String) : SendResult :=
  if skipGuard = false ∧ guard = some today then
    { attempted := false, payload := none, guardAfter := guard, surfacedError := none }
  else
    match outcome with
    | none =>
      { attempted := true, payload := some (summaryOf prayerData),
        guardAfter := some today, surfacedError := none }
    | some err =>
      { attempted := true, payload := some (summaryOf prayerData),
        guardAfter := guard, surfacedError := some err }

/-- Parsed shape of an imported backup document or a remote `tracker`
document: either field may be absent. -/
structure TrackerDoc where
  prayers : Option RawMap
  weekStartDate : Option Int

/-- App state slice relevant to import and sync suppression. -/
structure ImpState where
  prayers : RawMap
  weekStartDate : Int
  skipNextSync : Bool

/-- `handleImport` (`part_001` lines 299-314): `none` models a JSON parse
failure (alert, state untouched); otherwise each field present independently
overwrites the corresponding state.  The imported mapping is adopted verbatim
— no migration, no key validation — and `skipNextSync` is not touched. -/
def handleImport (s : ImpState) (doc : Option TrackerDoc) : ImpState :=
  match doc with
  | none => s
  | some d =>
    let s1 := match d.prayers with
      | some pm => { s with prayers := pm }
      | none => s
    match d.weekStartDate with
    | some w => { s1 with weekStartDate := w }
    | none => s1

/-- Shared logic of the two wholesale remote-replacement sites: the login
success path (`part_001` lines 118-124) and the on-mount Firestore load
(lines 177-183).  When the remote document carries a prayers mapping, both
migrate it (`migratePrayerNames(x) || x`), set `skipNextSync`, and adopt the
remote `weekStartDate` when present. -/
def applyRemoteTracker (s : ImpState) (data : Option TrackerDoc) : ImpState :=
  match data with
  | none => s
  | some d =>
    match d.prayers with
    | none => s
    | some pm =>
      { prayers := (migratePrayerNames (some pm)).getD pm,
        weekStartDate := d.weekStartDate.getD s.weekStartDate,
        skipNextSync := true }

/-- Observable outcome of one run of the persist effect. -/
structure PersistResult where
  localSaved : Bool
  remoteAttempted : Bool
  flagAfter : Bool
  deriving DecidableEq

/-- Persist effect (`part_001` lines 239-252): the local save always happens
first; a set `skipNextSync` flag is cleared and suppresses the remote
attempt; otherwise a remote save is attempted iff a user is logged in.  The
flag is cleared before the asynchronous remote call is issued, so its
consumption cannot depend on the call's outcome. -/
def persistEffect (skipNextSync : Bool) (currentUser : Option String) : PersistResult :=
  if skipNextSync then { localSaved := true, remoteAttempted := false, flagAfter := false }
  else
    match currentUser with
    | none => { localSaved := true, remoteAttempted := false, flagAfter := false }
    | some _ => { localSaved := true, remoteAttempted := true, flagAfter := false }

/-- Sync indicator values (`'loading' | 'synced' | 'offline'`). -/
inductive SyncStatus
  | loading
  | synced
  | offline
  deriving DecidableEq

/-- App state slice touched by registration. -/
structure RegState where
  prayers : RawMap
  weekStartDate : Int
  currentUser : Option String
  loginError : String
  syncStatus : SyncStatus

/-- Result of the awaited `registerUser` call. -/
inductive RegResult
  | ok
  | err (msg : String)

/-- JS `String.prototype.trim`: strip whitespace from both ends.  Modelled
over the character list (Lean core `String.trim` is not kernel-reducible). -/
def jsTrim (s : String) : String :=
  ⟨((s.toList.dropWhile Char.isWhitespace).reverse.dropWhile Char.isWhitespace).reverse⟩

/-- `handleRegister` (`part_001` lines 133-162): validation failures and a
failed registration only set an error message; on success the username is
adopted (lowercased), the prayers are replaced by the all-default mapping and
`weekStartDate` by the registration time.  The thrown-connection-error path
only sets an error message and is not modelled. -/
def handleRegister (username pin : String) (res : RegResult) (now : Int) (s : RegState) :
    RegState :=
  if jsTrim username = "" ∨ jsTrim pin = "" then
    { s with loginError := "Please enter username and PIN" }
  else if (jsTrim pin).length < 4 then
    { s with loginError := "PIN must be at least 4 characters" }
  else
    match res with
    | RegResult.err m => { s with loginError := m }
    | RegResult.ok =>
      { s with currentUser := some (jsTrim username).toLower,
               loginError := "",
               prayers := getDefaultPrayerData,
               weekStartDate := now,
               syncStatus := SyncStatus.synced }

/-- Key-set invariant from the spec: the mapping has exactly the
current-generation names as keys. -/
def ledgerKeysInv (m : RawMap) : Prop :=
  ∀ k, (m k).isSome ↔ k ∈ PRAYERS

/-- Sample well-formed current-generation mapping used by witnesses. -/
def sampleMap : RawMap :=
  fun k =>
    if k = "Subuh" then some ⟨5, 3, 2⟩
    else if k ∈ PRAYERS then some ⟨1, 1, 1⟩
    else none

/-- Sample legacy-keyed mapping used by witnesses. -/
def legacySample : RawMap :=
  fun k =>
    if k = "Fajr" then some ⟨5, 2, 1⟩
    else if k ∈ PRAYERS_LEGACY then some ⟨1, 1, 1⟩
    else none

/-- Mapping whose only key is the shared name `Maghrib`. -/
def maghribOnly : RawMap :=
  fun k => if k = "Maghrib" then some ⟨1, 1, 1⟩ else none

/-- Mapping whose only key is a non-prayer name. -/
def junkMap : RawMap :=
  fun k => if k = "Foo" then some ⟨1, 1, 1⟩ else none

/-- Import document carrying the junk mapping. -/
def importedJunk : TrackerDoc := { prayers := some junkMap, weekStartDate := none }

/-- Import document carrying a well-formed mapping. -/
def importedLedger : TrackerDoc := { prayers := some sampleMap, weekStartDate := some 3 }

/-- Pre-registration app state with non-default local counters. -/
def preRegState : RegState :=
  { prayers := sampleMap, weekStartDate := 5, currentUser := none,
    loginError := "", syncStatus := SyncStatus.loading }

/-- Import-side app state with default prayers and a clear suppression flag. -/
def importState : ImpState :=
  { prayers := getDefaultPrayerData, weekStartDate := 0, skipNextSync := false }

/-- Helper: the default mapping has exactly the current-generation keys. -/
theorem defaultMap_keysInv : ledgerKeysInv getDefaultPrayerData := by
  intro k
  unfold getDefaultPrayerData
  by_cases hk : k ∈ PRAYERS <;> simp [hk]

/-- Helper: when the migration fires, its output is exactly the mapping
described by the claim's words. -/
theorem migrateMap_fired (data : RawMap) (h1 : hasAllNewKeys data = false)
    (h2 : hasOldKeys data = true) : migrateMap data = claimMigrated data := by
  simp only [migrateMap, h1, h2]
  rfl

/-- Helper: the claim-described migrated mapping has exactly the
current-generation keys. -/
theorem claimMigrated_keysInv (data : RawMap) : ledgerKeysInv (claimMigrated data) := by
  intro k
  unfold claimMigrated
  split_ifs with h1 h2 h3 h4 h5 <;> simp_all [PRAYERS]

/-- C1: for every prayer name and raw input, `handleAddCompleted` with a
positive parsed-and-clamped count `n` sets `totalQada` to
`max(0, old.totalQada - n)` and `completedThisWeek` to
`old.completedThisWeek + n` (and clears the pending input); with a
parsed-and-clamped count of 0 (including non-numeric input) the whole state,
pending input included, is returned unchanged. -/
theorem recordCompletion_spec (m : RawMap) (input : String → String) (p : String)
    (c : PrayerCounters) (n : Int) (hpm : p ∈ PRAYERS) (hp : m p = some c)
    (hn : jsClampParse (input p) = n) :
    (0 < n →
      (handleAddCompleted m input p).1 p =
        some ⟨max 0 (c.totalQada - n), c.weeklyTarget, c.completedThisWeek + n⟩ ∧
      (handleAddCompleted m input p).2 p = "" ∧
      ∀ k, k ≠ p → (handleAddCompleted m input p).1 k = m k) ∧
    (n = 0 → handleAddCompleted m input p = (m, input)) := by
  constructor
  · intro hpos
    have hne : ¬ jsClampParse (input p) = 0 := by rw [hn]; omega
    refine ⟨?_, ?_, ?_⟩
    · simp [handleAddCompleted, hne, hp, hn, hpos.ne']
    · simp [handleAddCompleted, hne, hn, hpos.ne']
    · intro k hk
      simp [handleAddCompleted, hne, hk, hn, hpos.ne']
  · intro h0
    rw [h0] at hn
    simp [handleAddCompleted, hn]

/-- C1 witness: adding "3" to the Subuh entry of the sample ledger. -/
theorem recordCompletion_spec_witness :
    ("Subuh" ∈ PRAYERS ∧ sampleMap "Subuh" = some ⟨5, 3, 2⟩ ∧
      jsClampParse "3" = 3 ∧ (0 : Int) < 3) ∧
    (handleAddCompleted sampleMap (fun _ => "3") "Subuh").1 "Subuh" =
      some ⟨max 0 ((5 : Int) - 3), 3, (2 : Int) + 3⟩ :=
  ⟨⟨by decide, by decide, by decide, by decide⟩,
   ((recordCompletion_spec sampleMap (fun _ => "3") "Subuh" ⟨5, 3, 2⟩ 3
      (by decide) (by decide) (by decide)).1 (by decide)).1⟩

/-- C2: `resetWeek` zeroes `completedThisWeek` for every current prayer name
while preserving `totalQada` and `weeklyTarget`, leaves every non-prayer key
of the mapping untouched, and sets `weekStartDate` to the reset time. -/
theorem resetWeek_spec (m : RawMap) (now : Int) :
    (∀ k, k ∈ PRAYERS → ∀ c, m k = some c →
      (resetWeek m now).prayers k = some ⟨c.totalQada, c.weeklyTarget, 0⟩) ∧
    (∀ k, k ∉ PRAYERS → (resetWeek m now).prayers k = m k) ∧
    (resetWeek m now).weekStartDate = now := by
  refine ⟨?_, ?_, rfl⟩
  · intro k hk c hc
    simp [resetWeek, hk, hc]
  · intro k hk
    simp [resetWeek, hk]

/-- C2 witness: resetting the sample ledger at time 42. -/
theorem resetWeek_spec_witness :
    ("Subuh" ∈ PRAYERS ∧ sampleMap "Subuh" = some ⟨5, 3, 2⟩ ∧ "Foo" ∉ PRAYERS) ∧
    (resetWeek sampleMap 42).prayers "Subuh" = some ⟨5, 3, 0⟩ ∧
    (resetWeek sampleMap 42).prayers "Foo" = sampleMap "Foo" ∧
    (resetWeek sampleMap 42).weekStartDate = 42 :=
  ⟨⟨by decide, by decide, by decide⟩,
   (resetWeek_spec sampleMap 42).1 "Subuh" (by decide) ⟨5, 3, 2⟩ (by decide),
   (resetWeek_spec sampleMap 42).2.1 "Foo" (by decide),
   (resetWeek_spec sampleMap 42).2.2⟩

/-- C4: `getDaysLeftInWeek` equals `max(0, 7 - floor((now - start)/day))`,
`shouldAutoReset` holds iff that value is 0, the cycle is not expired after
6.99 elapsed days (603936000 ms) and is expired once 7 full days
(604800000 ms) or more have elapsed. -/
theorem cycleCalendar_spec (now start : Int) :
    getDaysLeftInWeek now start = max 0 (7 - (now - start).fdiv msPerDay) ∧
    (shouldAutoReset now start = true ↔ getDaysLeftInWeek now start = 0) ∧
    shouldAutoReset (start + 603936000) start = false ∧
    (604800000 ≤ now - start → shouldAutoReset now start = true) := by
  refine ⟨rfl, ?_, ?_, ?_⟩
  · simp [shouldAutoReset]
  · simp only [shouldAutoReset, getDaysLeftInWeek]
    have h : start + (603936000 : Int) - start = 603936000 := by ring
    rw [h]
    decide
  · intro h
    have hd : (7 : Int) ≤ (now - start).fdiv msPerDay := by
      rw [Int.fdiv_eq_ediv _ (by norm_num [msPerDay])]
      rw [Int.le_ediv_iff_mul_le (by norm_num [msPerDay])]
      simp only [msPerDay]
      omega
    simp only [shouldAutoReset, getDaysLeftInWeek, beq_iff_eq]
    omega

/-- C4 witness: exactly 7 elapsed days from epoch 0 trigger the reset. -/
theorem cycleCalendar_spec_witness :
    ((604800000 : Int) ≤ 604800000 - 0) ∧ shouldAutoReset 604800000 0 = true :=
  ⟨by decide, (cycleCalendar_spec 604800000 0).2.2.2 (by decide)⟩

/-- C5: after `resetWeek` runs at instant `now`, the expiry check re-evaluated
at that same instant against the freshly set `weekStartDate` is false, and
running `resetWeek` again at the same instant leaves the state produced by
the first reset unchanged. -/
theorem resetWeek_idempotent (m : RawMap) (now : Int) :
    shouldAutoReset now (resetWeek m now).weekStartDate = false ∧
    resetWeek (resetWeek m now).prayers now = resetWeek m now := by
  constructor
  · show shouldAutoReset now now = false
    simp [shouldAutoReset, getDaysLeftInWeek]
  · have h : (resetWeek (resetWeek m now).prayers now).prayers = (resetWeek m now).prayers := by
      funext k
      by_cases hk : k ∈ PRAYERS <;> simp [resetWeek, hk]
    exact congrArg (fun f => ResetOutcome.mk f now none) h

/-- C3 counterexample: the mapping `{Maghrib: {1,1,1}}` is missing current
keys and contains a legacy-generation key (Maghrib), so the claim mandates a
migration producing all five current keys; but `migratePrayerNames` passes it
through unchanged (its trigger tests only Fajr/Dhuhr/Asr/Isha), so `Subuh` is
absent from the output while the claim-described output defaults it. -/
theorem migrate_trigger_cex :
    hasAllNewKeys maghribOnly = false ∧
    hasAnyLegacyKey maghribOnly = true ∧
    migrateMap maghribOnly "Subuh" = none ∧
    claimMigrated maghribOnly "Subuh" = some defaultCounters := by
  refine ⟨by decide, by decide, ?_, by decide⟩
  decide

/-- C3 amended: migration fires exactly when a current-generation key is
missing and one of the four legacy-only keys Fajr/Dhuhr/Asr/Isha is present
(the shared key `Maghrib` alone does not trigger it); when it fires, every
legacy key is renamed to its current counterpart preserving its counters,
every current key whose legacy counterpart is absent gets `{0,0,0}`, and the
output has no key outside the current-generation set; a mapping that already
has the full current key set passes through unchanged even when stray legacy
keys are present. -/
theorem migratePrayerNames_spec (data : RawMap) :
    (hasAllNewKeys data = true → migrateMap data = data) ∧
    (hasAllNewKeys data = false → hasOldKeys data = true →
      (∀ ok nk, (ok, nk) ∈ OLD_TO_NEW →
        migrateMap data nk = some ((data ok).getD defaultCounters)) ∧
      (∀ k, k ∉ PRAYERS → migrateMap data k = none)) := by
  constructor
  · intro h
    simp [migrateMap, h]
  · intro h1 h2
    rw [migrateMap_fired data h1 h2]
    constructor
    · intro ok nk hmem
      simp only [OLD_TO_NEW, List.mem_cons, List.mem_singleton, List.not_mem_nil,
        or_false, Prod.mk.injEq] at hmem
      rcases hmem with ⟨h3, h4⟩ | ⟨h3, h4⟩ | ⟨h3, h4⟩ | ⟨h3, h4⟩ | ⟨h3, h4⟩ <;>
        subst h3 <;> subst h4 <;> rfl
    · intro k hk
      simp only [PRAYERS, List.mem_cons, List.mem_singleton, List.not_mem_nil,
        or_false] at hk
      push_neg at hk
      simp [claimMigrated, hk.1, hk.2.1, hk.2.2.1, hk.2.2.2.1, hk.2.2.2.2]

/-- C3 amended witness: the legacy-keyed sample is migrated; its Fajr
counters move to Subuh and a non-prayer key is absent from the output. -/
theorem migratePrayerNames_spec_witness :
    (hasAllNewKeys legacySample = false ∧ hasOldKeys legacySample = true ∧
      ("Fajr", "Subuh") ∈ OLD_TO_NEW ∧ "Foo" ∉ PRAYERS) ∧
    migrateMap legacySample "Subuh" = some ((legacySample "Fajr").getD defaultCounters) ∧
    migrateMap legacySample "Foo" = none :=
  ⟨⟨by decide, by decide, by decide, by decide⟩,
   ((migratePrayerNames_spec legacySample).2 (by decide) (by decide)).1 "Fajr" "Subuh"
     (by decide),
   ((migratePrayerNames_spec legacySample).2 (by decide) (by decide)).2 "Foo" (by decide)⟩

/-- C6 counterexample: a concrete cycle reset in the current-generation code
makes no notification attempt — the `sendBackupEmail(prev, false)` call
inside `resetWeek` is commented out — refuting the claim that a notification
attempt is invoked on every reset. -/
theorem reset_notification_cex : (resetWeek sampleMap 0).attempt = none := rfl

/-- C6 amended: in the current code `resetWeek` makes no notification attempt
at all; in the earlier variant (`part_000`), `sendBackupEmail` is invoked
synchronously on the pre-reset snapshot before the counters are zeroed, so
whenever the daily guard does not block, the attempted summary reflects the
just-finished week's counters while the stored counters are zeroed. -/
theorem reset_notification_amended (m : RawMap) (guard : Option String) (today : String)
    (now : Int) :
    (resetWeek m now).attempt = none ∧
    (guard ≠ some today → (resetWeekLegacy m guard today now).attempt = some (summaryOfL m)) ∧
    (∀ k, k ∈ PRAYERS_LEGACY → ∀ c, m k = some c →
      (resetWeekLegacy m guard today now).prayers k = some ⟨c.totalQada, c.weeklyTarget, 0⟩) ∧
    (resetWeekLegacy m guard today now).weekStartDate = now := by
  refine ⟨rfl, ?_, ?_, rfl⟩
  · intro hg
    simp [resetWeekLegacy, hg]
  · intro k hk c hc
    simp [resetWeekLegacy, hk, hc]

/-- C6 amended witness: resetting the legacy sample with a clear guard
attempts a summary built from the pre-reset snapshot and zeroes Fajr. -/
theorem reset_notification_amended_witness :
    ((none : Option String) ≠ some "2026-10-12" ∧ "Fajr" ∈ PRAYERS_LEGACY ∧
      legacySample "Fajr" = some ⟨5, 2, 1⟩) ∧
    (resetWeekLegacy legacySample none "2026-10-12" 7).attempt = some (summaryOfL legacySample) ∧
    (resetWeekLegacy legacySample none "2026-10-12" 7).prayers "Fajr" = some ⟨5, 2, 0⟩ :=
  ⟨⟨by decide, by decide, by decide⟩,
   (reset_notification_amended legacySample none "2026-10-12" 7).2.1 (by decide),
   (reset_notification_amended legacySample none "2026-10-12" 7).2.2.1 "Fajr" (by decide)
     ⟨5, 2, 1⟩ (by decide)⟩

/-- C7 counterexample: the key-set invariant holds before an import and is
broken by importing a document whose prayers mapping has a single junk key —
`handleImport` adopts the mapping verbatim, so `Subuh` goes missing. -/
theorem key_invariant_cex :
    ledgerKeysInv importState.prayers ∧
    ¬ ledgerKeysInv (handleImport importState (some importedJunk)).prayers := by
  constructor
  · exact defaultMap_keysInv
  · intro h
    have h2 := (h "Subuh").2 (by decide)
    simp [handleImport, importedJunk, junkMap] at h2

/-- C7 amended: the exactly-the-five-current-keys invariant is preserved by
the four in-app mutations (set total, set weekly target, record completion,
cycle reset) for any current prayer name, and a load whose migration fires
produces a mapping with exactly the current keys; but unvalidated imports
(and loads that neither have all current keys nor trigger migration) can
break it. -/
theorem key_invariant_amended (m : RawMap) (p value : String) (input : String → String)
    (now : Int) (d : RawMap) (hm : ledgerKeysInv m) (hp : p ∈ PRAYERS) :
    ledgerKeysInv (handleSetTotal m p value) ∧
    ledgerKeysInv (handleSetWeeklyTarget m p value) ∧
    ledgerKeysInv (handleAddCompleted m input p).1 ∧
    ledgerKeysInv (resetWeek m now).prayers ∧
    (hasAllNewKeys d = false → hasOldKeys d = true → ledgerKeysInv (migrateMap d)) := by
  refine ⟨?_, ?_, ?_, ?_, ?_⟩
  · intro k
    by_cases hk : k = p
    · subst hk; simp [handleSetTotal, hp]
    · simp [handleSetTotal, hk, hm k]
  · intro k
    by_cases hk : k = p
    · subst hk; simp [handleSetWeeklyTarget, hp]
    · simp [handleSetWeeklyTarget, hk, hm k]
  · intro k
    by_cases h0 : jsClampParse (input p) = 0
    · simp [handleAddCompleted, h0, hm k]
    · by_cases hk : k = p
      · subst hk; simp [handleAddCompleted, h0, hp]
      · simp [handleAddCompleted, h0, hk, hm k]
  · intro k
    by_cases hk : k ∈ PRAYERS
    · simp [resetWeek, hk]
    · simp [resetWeek, hk, hm k]
  · intro h1 h2
    rw [migrateMap_fired d h1 h2]
    exact claimMigrated_keysInv d

/-- C7 amended witness: the invariant survives a reset of the default ledger
and a fired migration of the legacy sample. -/
theorem key_invariant_amended_witness :
    (ledgerKeysInv getDefaultPrayerData ∧ "Subuh" ∈ PRAYERS ∧
      hasAllNewKeys legacySample = false ∧ hasOldKeys legacySample = true) ∧
    ledgerKeysInv (resetWeek getDefaultPrayerData 0).prayers ∧
    ledgerKeysInv (migrateMap legacySample) :=
  ⟨⟨defaultMap_keysInv, by decide, by decide, by decide⟩,
   (key_invariant_amended getDefaultPrayerData "Subuh" "7" (fun _ => "2") 0 legacySample
      defaultMap_keysInv (by decide)).2.2.2.1,
   (key_invariant_amended getDefaultPrayerData "Subuh" "7" (fun _ => "2") 0 legacySample
      defaultMap_keysInv (by decide)).2.2.2.2 (by decide) (by decide)⟩

/-- C8: with the guard not bypassed and the marker equal to today, the call is
a no-op; with the guard bypassed an attempt is always made; a successful
delivery stores today's date in the guard; a failed delivery surfaces the
error and leaves the guard unchanged (so a later attempt is not blocked). -/
theorem sendBackupEmail_spec (m : RawMap) (guard : Option String) (today : String)
    (outcome : Option String) (err : String) :
    (guard = some today →
      sendBackupEmail m false guard today outcome =
        { attempted := false, payload := none, guardAfter := guard, surfacedError := none }) ∧
    ((sendBackupEmail m true guard today outcome).attempted = true) ∧
    (guard ≠ some today →
      sendBackupEmail m false guard today none =
        { attempted := true, payload := some (summaryOf m), guardAfter := some today,
          surfacedError := none }) ∧
    (guard ≠ some today →
      sendBackupEmail m false guard today (some err) =
        { attempted := true, payload := some (summaryOf m), guardAfter := guard,
          surfacedError := some err }) ∧
    ((sendBackupEmail m true guard today (some err)).surfacedError = some err ∧
      (sendBackupEmail m true guard today (some err)).guardAfter = guard) := by
  refine ⟨?_, ?_, ?_, ?_, ?_, ?_⟩
  · intro hg
    simp [sendBackupEmail, hg]
  · cases outcome <;> simp [sendBackupEmail]
  · intro hg
    simp [sendBackupEmail, hg]
  · intro hg
    simp [sendBackupEmail, hg]
  · simp [sendBackupEmail]
  · simp [sendBackupEmail]

/-- C8 witness: guard equal to today blocks the send; with a different guard
a failed delivery surfaces the error and keeps the old guard. -/
theorem sendBackupEmail_spec_witness :
    ((some "2026-01-01" : Option String) = some "2026-01-01" ∧
      (some "2026-01-01" : Option String) ≠ some "2026-01-02") ∧
    sendBackupEmail sampleMap false (some "2026-01-01") "2026-01-01" none =
      { attempted := false, payload := none, guardAfter := some "2026-01-01",
        surfacedError := none } ∧
    sendBackupEmail sampleMap false (some "2026-01-01") "2026-01-02" (some "boom") =
      { attempted := true, payload := some (summaryOf sampleMap),
        guardAfter := some "2026-01-01", surfacedError := some "boom" } :=
  ⟨⟨rfl, by decide⟩,
   (sendBackupEmail_spec sampleMap (some "2026-01-01") "2026-01-01" none "boom").1 rfl,
   (sendBackupEmail_spec sampleMap (some "2026-01-01") "2026-01-02" (some "boom")
      "boom").2.2.2.1 (by decide)⟩

/-- C9 counterexample: importing a document that carries a prayers mapping
replaces the ledger wholesale, yet `handleImport` leaves the suppression flag
clear, so the very next persist run for a logged-in user attempts a remote
save — the imported replacement is echoed to the remote store. -/
theorem import_sync_cex :
    importState.skipNextSync = false ∧
    (handleImport importState (some importedLedger)).skipNextSync = false ∧
    (persistEffect (handleImport importState (some importedLedger)).skipNextSync
        (some "alice")).remoteAttempted = true :=
  ⟨rfl, rfl, rfl⟩

/-- C9 amended: the remote-load and login replacement paths set the
suppression flag; a set flag makes the next persist run save locally, skip
the remote attempt and clear the flag (its consumption precedes the
asynchronous save, hence cannot depend on the outcome); a clear flag lets the
persist run attempt the remote save exactly when a user is logged in; but
the import path does not set the flag, so an imported replacement is echoed
as a remote save. -/
theorem sync_suppression_amended (s : ImpState) (pm : RawMap) (w : Option Int) (u v : String) :
    (applyRemoteTracker s (some { prayers := some pm, weekStartDate := w })).skipNextSync
      = true ∧
    persistEffect true (some u) =
      { localSaved := true, remoteAttempted := false, flagAfter := false } ∧
    persistEffect true none =
      { localSaved := true, remoteAttempted := false, flagAfter := false } ∧
    persistEffect false none =
      { localSaved := true, remoteAttempted := false, flagAfter := false } ∧
    persistEffect false (some v) =
      { localSaved := true, remoteAttempted := true, flagAfter := false } ∧
    (handleImport s (some { prayers := some pm, weekStartDate := w })).skipNextSync
      = s.skipNextSync := by
  refine ⟨rfl, rfl, rfl, rfl, rfl, ?_⟩
  cases w <;> rfl

/-- C10: a successful registration (non-empty trimmed username and PIN, PIN at
least 4 characters) replaces the in-memory prayers with the all-default
mapping — every current prayer name mapped to `{0,0,0}` — and sets
`weekStartDate` to the registration time, discarding the previous local
counters. -/
theorem handleRegister_spec (u p : String) (now : Int) (s : RegState)
    (hu : ¬ jsTrim u = "") (hp : ¬ jsTrim p = "") (hlen : 4 ≤ (jsTrim p).length) :
    (handleRegister u p RegResult.ok now s).prayers = getDefaultPrayerData ∧
    (handleRegister u p RegResult.ok now s).weekStartDate = now ∧
    (∀ k, k ∈ PRAYERS →
      (handleRegister u p RegResult.ok now s).prayers k = some ⟨0, 0, 0⟩) ∧
    (handleRegister u p RegResult.ok now s).currentUser = some (jsTrim u).toLower := by
  have hv : ¬ (jsTrim u = "" ∨ jsTrim p = "") := by
    intro h
    rcases h with h | h
    · exact hu h
    · exact hp h
  have hl : ¬ (jsTrim p).length < 4 := by omega
  refine ⟨?_, ?_, ?_, ?_⟩
  · simp [handleRegister, hv, hl]
  · simp [handleRegister, hv, hl]
  · intro k hk
    simp [handleRegister, hv, hl, getDefaultPrayerData, hk, defaultCounters]
  · simp [handleRegister, hv, hl]

/-- C10 witness: registering "alice"/"1234" over a state with non-default
local counters yields the default mapping and the registration time. -/
theorem handleRegister_spec_witness :
    (¬ jsTrim "alice" = "" ∧ ¬ jsTrim "1234" = "" ∧ 4 ≤ (jsTrim "1234").length) ∧
    (handleRegister "alice" "1234" RegResult.ok 99 preRegState).prayers
      = getDefaultPrayerData ∧
    (handleRegister "alice" "1234" RegResult.ok 99 preRegState).weekStartDate = 99 :=
  ⟨⟨by decide, by decide, by decide⟩,
   (handleRegister_spec "alice" "1234" 99 preRegState (by decide) (by decide) (by decide)).1,
   (handleRegister_spec "alice" "1234" 99 preRegState (by decide) (by decide)
      (by decide)).2.1⟩
